import Mathlib

/-!
Verification of the peer-pool specification against `src/lib/p2p/Pool.ts`.

The definitions below are a shallow embedding of the `Pool` class. Pure decision
logic (admission checks, reconnection policy, reputation filtering, gossip
replies, connection-attempt ordering) is translated into executable Lean
functions; stateful procedures (`addOutbound`, `disconnect`, inbound socket
handling, the duplicate-connection race) are modelled as explicit state
transitions or traces of intermediate states, with an `await` boundary between
consecutive trace states. External collaborators that are not part of the
sources (the semver library, socket connectivity) enter as function parameters;
the few pieces of repository code outside the sources that a claim needs
(address sorting and equality, the reputation-event enum) are modelled from the
specification and say so in their doc comments.
-/

namespace XudPool

/-- Wire-stable disconnection reason codes from the constants enum, as listed in
the specification (section 6). -/
inductive DisconnectionReason
  | Shutdown
  | IncompatibleProtocolVersion
  | MalformedVersion
  | Banned
  | AlreadyConnected
  | ConnectedToSelf
  | NotAcceptingConnections
  | ResponseStalling
  | WireProtocolErr
  deriving DecidableEq, Repr

/-- Error kinds thrown by `Pool` methods, from the p2p error taxonomy
(specification section 7, `src/lib/p2p/errors`). -/
inductive PoolErr
  | ATTEMPTED_CONNECTION_TO_SELF
  | POOL_CLOSED
  | NODE_TOR_ADDRESS
  | NODE_IS_BANNED
  | NODE_ALREADY_CONNECTED
  | NODE_ALREADY_BANNED
  | NODE_NOT_BANNED
  | ALREADY_CONNECTING
  | NOT_CONNECTED
  | NODE_NOT_FOUND
  | MALFORMED_VERSION
  | INCOMPATIBLE_VERSION
  | CONNECTION_RETRIES_MAX_PERIOD_EXCEEDED
  deriving DecidableEq, Repr

/-- A network address: host, port and an optional last-connected timestamp
(`lib/p2p/types`). -/
structure Address where
  host : String
  port : Nat
  lastConnected : Option Nat := none
  deriving DecidableEq, Repr

/-- Node connection info as gossiped and used for outbound dialing:
a pubkey together with its advertised addresses and the optional address of the
last successful connection. -/
structure NodeConnectionInfo where
  nodePubKey : String
  addresses : List Address
  lastAddress : Option Address := none
  deriving DecidableEq, Repr

/-- Modelled from the spec: the reputation-event enum lives in
`lib/constants/enums`, which is not among the sources; the constructors are the
events named by the specification (its section 4.3 table and the strict-mode
filter in `Pool.addReputationEvent`). -/
inductive ReputationEvent
  | ManualBan
  | ManualUnban
  | SwapAbuse
  | SwapMisbehavior
  | WireProtocolErr
  | InvalidAuth
  | SwapSuccess
  deriving DecidableEq, Repr

/-- From `Pool.addReputationEvent` (src/lib/p2p/Pool.ts lines 683-696): whether
the event is forwarded to `NodeList.addReputationEvent`. In strict mode every
event is forwarded; otherwise only manual or severe events are, to prevent
unintentional bans. -/
def addReputationEventForwards (strict : Bool) (event : ReputationEvent) : Bool :=
  strict
    || event == .ManualBan
    || event == .ManualUnban
    || event == .SwapAbuse
    || event == .SwapMisbehavior
    || event == .WireProtocolErr
    || event == .InvalidAuth

/-- The observable fields of an open peer that `handleGetNodes` reads: its node
pubkey and the listening addresses from its advertised node state (which may be
absent). -/
structure OpenPeerEntry where
  nodePubKey : String
  addresses : Option (List Address)
  deriving DecidableEq, Repr

/-- From `Pool.handleGetNodes` (src/lib/p2p/Pool.ts lines 922-934): the single
entry contributed by one connected peer to the `Nodes` reply for a request from
`requesterPubKey`, or `none` when the peer is skipped. A peer is skipped when it
is the requester itself or when it has no known listening addresses. -/
def getNodesEntry (requesterPubKey : String) (cp : OpenPeerEntry) : Option NodeConnectionInfo :=
  match cp.addresses with
  | some addrs =>
    if cp.nodePubKey != requesterPubKey && addrs.length > 0 then
      some { nodePubKey := cp.nodePubKey, addresses := addrs }
    else
      none
  | none => none

/-- From `Pool.handleGetNodes`: the reply to a `GetNodes` packet with header id
`reqId` from the peer with `requesterPubKey`, given the pool's `peers` map in
iteration order. Returns the node list of the `Nodes` packet together with the
`reqId` it is sent with. -/
def handleGetNodes (peers : List OpenPeerEntry) (requesterPubKey : String) (reqId : String) :
    List NodeConnectionInfo × String :=
  (peers.filterMap (getNodesEntry requesterPubKey), reqId)

/-- Helper for C7: the filterMap over `getNodesEntry` is a filter-then-map. -/
theorem getNodesEntry_filterMap (requesterPubKey : String) (peers : List OpenPeerEntry) :
    peers.filterMap (getNodesEntry requesterPubKey) =
      (peers.filter fun cp =>
          cp.nodePubKey ≠ requesterPubKey ∧ cp.addresses.getD [] ≠ []).map
        (fun cp => { nodePubKey := cp.nodePubKey, addresses := cp.addresses.getD [] }) := by
  induction peers with
  | nil => rfl
  | cons cp rest ih =>
    simp only [List.filterMap_cons, List.filter_cons]
    by_cases hsame : cp.nodePubKey = requesterPubKey
    · have hnone : getNodesEntry requesterPubKey cp = none := by
        unfold getNodesEntry
        cases cp.addresses with
        | none => rfl
        | some addrs => simp [hsame]
      simp [hnone, hsame, ih]
    · cases haddr : cp.addresses with
      | none =>
        have hnone : getNodesEntry requesterPubKey cp = none := by
          unfold getNodesEntry; rw [haddr]
        simp [hnone, haddr, hsame, ih]
      | some addrs =>
        cases addrs with
        | nil =>
          have hnone : getNodesEntry requesterPubKey cp = none := by
            unfold getNodesEntry; rw [haddr]; simp
          simp [hnone, haddr, hsame, ih]
        | cons a as =>
          have hsome : getNodesEntry requesterPubKey cp =
              some { nodePubKey := cp.nodePubKey, addresses := a :: as } := by
            unfold getNodesEntry; rw [haddr]
            simp [hsame]
          simp [hsome, haddr, hsame, ih]

/-- C7: on receipt of `GetNodes`, the pool replies with a `Nodes` packet carrying
the request id as `reqId`, containing exactly one entry (pubkey plus addresses)
for each currently open peer other than the requester that has a nonempty list
of known listening addresses, in peers-map iteration order, and no other
entries. -/
theorem handleGetNodes_entries (peers : List OpenPeerEntry) (requesterPubKey reqId : String) :
    handleGetNodes peers requesterPubKey reqId =
      ((peers.filter fun cp =>
          cp.nodePubKey ≠ requesterPubKey ∧ cp.addresses.getD [] ≠ []).map
        (fun cp => { nodePubKey := cp.nodePubKey, addresses := cp.addresses.getD [] }),
       reqId) := by
  unfold handleGetNodes
  rw [getNodesEntry_filterMap]

/-- C10: with `strict = false`, `addReputationEvent` forwards an event to the
`NodeList` (and hence can change a score or trigger an auto-ban) exactly when it
is one of `ManualBan`, `ManualUnban`, `SwapAbuse`, `SwapMisbehavior`,
`WireProtocolErr` or `InvalidAuth`; with `strict = true` every event is
forwarded. -/
theorem addReputationEventForwards_filter (strict : Bool) (event : ReputationEvent) :
    addReputationEventForwards strict event = true ↔
      (strict = true ∨
        event ∈ [ReputationEvent.ManualBan, ReputationEvent.ManualUnban,
          ReputationEvent.SwapAbuse, ReputationEvent.SwapMisbehavior,
          ReputationEvent.WireProtocolErr, ReputationEvent.InvalidAuth]) := by
  cases strict <;> cases event <;> simp [addReputationEventForwards]

/-- The fields of a just-closed `Peer` object read by `Pool.handlePeerClose`.
The pubkey is optional because inbound peers that never completed a handshake
have none; `address` is the socket address the session used, which is always
set on a constructed `Peer`. -/
structure ClosedPeerInfo where
  active : Bool
  inbound : Bool
  nodePubKey : Option String
  addresses : Option (List Address)
  address : Address
  sentDisconnectionReason : Option DisconnectionReason
  recvDisconnectionReason : Option DisconnectionReason
  deriving DecidableEq, Repr

/-- From `Pool.handlePeerClose` (src/lib/p2p/Pool.ts lines 986-990): whether the
disconnection reasons sent and received over the closed session permit a
reconnection attempt. -/
def doesDisconnectionReasonCallForReconnection (p : ClosedPeerInfo) : Bool :=
  (p.sentDisconnectionReason == none
      || p.sentDisconnectionReason == some DisconnectionReason.ResponseStalling)
    && (p.recvDisconnectionReason == none
      || p.recvDisconnectionReason == some DisconnectionReason.ResponseStalling
      || p.recvDisconnectionReason == some DisconnectionReason.AlreadyConnected
      || p.recvDisconnectionReason == some DisconnectionReason.Shutdown)

/-- A call to `Pool.tryConnectNode`: the target node info and the
`retryConnecting` flag passed. -/
structure ReconnectAttempt where
  node : NodeConnectionInfo
  retryConnecting : Bool
  deriving DecidableEq, Repr

/-- From `Pool.handlePeerClose` (src/lib/p2p/Pool.ts lines 974-1003): the
reconnection decision for a closed peer. Returns the `tryConnectNode` call the
pool makes, or `none` when no reconnection is attempted. Peers that were never
active cause an early return. The guard `length != 0 || true` transcribes the
source condition `addresses.length || peer.address`, where `peer.address` is
always a defined object and hence truthy. -/
def handlePeerClose (connected disconnecting : Bool) (p : ClosedPeerInfo) : Option ReconnectAttempt :=
  if !p.active then none
  else
    let addresses := p.addresses.getD []
    if doesDisconnectionReasonCallForReconnection p
        && !p.inbound
        && p.nodePubKey.isSome
        && (addresses.length != 0 || true)
        && !disconnecting && connected then
      some { node := { nodePubKey := p.nodePubKey.getD "",
                       addresses := addresses,
                       lastAddress := some p.address },
             retryConnecting := true }
    else none

/-- The addresses available for reconnecting to a closed peer: its advertised
addresses plus the address of the session that just closed (used as
`lastAddress` of the reconnection target). -/
def availableAddresses (p : ClosedPeerInfo) : List Address :=
  p.addresses.getD [] ++ [p.address]

/-- The reconnection condition exactly as claim C3 words it. -/
def reconnectConditionSpec (connected disconnecting : Bool) (p : ClosedPeerInfo) : Prop :=
  (p.sentDisconnectionReason = none
      ∨ p.sentDisconnectionReason = some DisconnectionReason.ResponseStalling)
    ∧ (p.recvDisconnectionReason = none
      ∨ p.recvDisconnectionReason = some DisconnectionReason.ResponseStalling
      ∨ p.recvDisconnectionReason = some DisconnectionReason.AlreadyConnected
      ∨ p.recvDisconnectionReason = some DisconnectionReason.Shutdown)
    ∧ p.inbound = false
    ∧ p.nodePubKey.isSome = true
    ∧ availableAddresses p ≠ []
    ∧ connected = true ∧ disconnecting = false

instance (connected disconnecting : Bool) (p : ClosedPeerInfo) :
    Decidable (reconnectConditionSpec connected disconnecting p) := by
  unfold reconnectConditionSpec; infer_instance

/-- C3: for every active peer that closes, the pool begins a reconnection
attempt via `tryConnectNode` with `retryConnecting = true` if and only if the
condition of claim C3 holds (acceptable sent and received disconnection
reasons, outbound, known pubkey, at least one available address, pool connected
and not disconnecting); otherwise no reconnection attempt is made. -/
theorem handlePeerClose_reconnect_iff (connected disconnecting : Bool) (p : ClosedPeerInfo)
    (hactive : p.active = true) :
    (reconnectConditionSpec connected disconnecting p →
      handlePeerClose connected disconnecting p =
        some { node := { nodePubKey := p.nodePubKey.getD "",
                         addresses := p.addresses.getD [],
                         lastAddress := some p.address },
               retryConnecting := true })
    ∧ (¬ reconnectConditionSpec connected disconnecting p →
        handlePeerClose connected disconnecting p = none) := by
  have havail : availableAddresses p ≠ [] := by
    unfold availableAddresses
    simp
  have hguard :
      (doesDisconnectionReasonCallForReconnection p
          && !p.inbound
          && p.nodePubKey.isSome
          && (((p.addresses.getD []).length != 0) || true)
          && !disconnecting && connected) = true
        ↔ reconnectConditionSpec connected disconnecting p := by
    unfold doesDisconnectionReasonCallForReconnection reconnectConditionSpec
    cases connected <;> cases disconnecting <;> cases hinb : p.inbound <;>
      simp [havail, hinb] <;> tauto
  constructor
  · intro hspec
    unfold handlePeerClose
    rw [hactive]
    simp only [Bool.not_true, Bool.false_eq_true, if_false]
    rw [if_pos (hguard.mpr hspec)]
  · intro hspec
    unfold handlePeerClose
    rw [hactive]
    simp only [Bool.not_true, Bool.false_eq_true, if_false]
    rw [if_neg]
    intro hc
    exact hspec (hguard.mp hc)

/-- Witness for C3 at a concrete closed peer: an outbound active peer with a
known pubkey that stalled (received `ResponseStalling`) on a connected pool is
reconnected with `retryConnecting = true`. -/
theorem handlePeerClose_reconnect_iff_witness :
    handlePeerClose true false
        { active := true, inbound := false, nodePubKey := some "02aa",
          addresses := some [{ host := "1.2.3.4", port := 8885 }],
          address := { host := "1.2.3.4", port := 8885 },
          sentDisconnectionReason := none,
          recvDisconnectionReason := some DisconnectionReason.ResponseStalling } =
      some { node := { nodePubKey := "02aa",
                       addresses := [{ host := "1.2.3.4", port := 8885 }],
                       lastAddress := some { host := "1.2.3.4", port := 8885 } },
             retryConnecting := true } := by
  exact (handlePeerClose_reconnect_iff true false _ (by decide)).1 (by decide)

/-- The pool-level state read by the admission and outbound-connection checks:
our identity, the version floor, the listening port, the connection flags, the
`NodeList` ban state, and the key sets of the `peers` and
`pendingOutboundPeers` maps. -/
structure PoolModel where
  nodePubKey : String
  minCompatibleVersion : String
  listenPort : Option Nat := none
  connected : Bool := true
  disconnecting : Bool := false
  torEnabled : Bool := false
  bannedKeys : List String := []
  peerKeys : List String := []
  pendingOutboundKeys : List String := []
  deriving DecidableEq, Repr

/-- The fields of a peer read by `Pool.validatePeer` after the first handshake
phase: the remote pubkey (asserted present), its advertised version, and
whether its socket is still connected. -/
structure HandshakePeer where
  nodePubKey : String
  version : String
  connected : Bool
  deriving DecidableEq, Repr

/-- From `Pool.validatePeer` (src/lib/p2p/Pool.ts lines 873-917): the admission
checks for a peer that completed the first handshake phase. On rejection the
result carries the `DisconnectionReason` the peer is closed with (`none` when
the code throws without closing) and the error thrown. The semver library is
external to the sources, so version validity and comparison enter as the
parameters `semverValid` and `semverCompare`. -/
def validatePeer (semverValid : String → Bool) (semverCompare : String → String → Int)
    (pool : PoolModel) (peer : HandshakePeer) :
    Except (Option DisconnectionReason × PoolErr) Unit :=
  if peer.nodePubKey == pool.nodePubKey then
    .error (some DisconnectionReason.ConnectedToSelf, PoolErr.ATTEMPTED_CONNECTION_TO_SELF)
  else if !(semverValid peer.version) then
    .error (some DisconnectionReason.MalformedVersion, PoolErr.MALFORMED_VERSION)
  else if semverCompare peer.version pool.minCompatibleVersion == -1 then
    .error (some DisconnectionReason.IncompatibleProtocolVersion, PoolErr.INCOMPATIBLE_VERSION)
  else if !pool.connected then
    .error (some DisconnectionReason.NotAcceptingConnections, PoolErr.POOL_CLOSED)
  else if pool.bannedKeys.contains peer.nodePubKey then
    .error (some DisconnectionReason.Banned, PoolErr.NODE_IS_BANNED)
  else if pool.peerKeys.contains peer.nodePubKey then
    .error (some DisconnectionReason.AlreadyConnected, PoolErr.NODE_ALREADY_CONNECTED)
  else if !peer.connected then
    .error (none, PoolErr.NOT_CONNECTED)
  else
    .ok ()

/-- Counterexample to C2: a peer that passes every admission check except the
final broken-socket check is rejected with `NOT_CONNECTED` but is not closed
with any `DisconnectionReason` (the source throws without calling
`peer.close`), so not every rejection closes the peer with a distinct
disconnection reason. -/
theorem validatePeer_broken_socket_closes_nothing :
    validatePeer (fun _ => true) (fun _ _ => 0)
        { nodePubKey := "02aa", minCompatibleVersion := "1.0.0" }
        { nodePubKey := "02bb", version := "1.0.0", connected := false } =
      Except.error (none, PoolErr.NOT_CONNECTED) := by
  rfl

/-- C2 (amended): `validatePeer` applies its admission checks in the claimed
order — self, malformed version, incompatible version, pool disconnected,
banned, duplicate, broken socket — each rejection throwing the matching
taxonomy error; the first six rejections close the peer with the distinct
reasons `ConnectedToSelf`, `MalformedVersion`, `IncompatibleProtocolVersion`,
`NotAcceptingConnections`, `Banned`, `AlreadyConnected` respectively, while the
broken-socket rejection throws `NOT_CONNECTED` without closing the peer with a
disconnection reason. -/
theorem validatePeer_check_order (semverValid : String → Bool)
    (semverCompare : String → String → Int) (pool : PoolModel) (peer : HandshakePeer) :
    (validatePeer semverValid semverCompare pool peer =
        Except.error (some DisconnectionReason.ConnectedToSelf, PoolErr.ATTEMPTED_CONNECTION_TO_SELF)
      ↔ peer.nodePubKey = pool.nodePubKey)
    ∧ (validatePeer semverValid semverCompare pool peer =
        Except.error (some DisconnectionReason.MalformedVersion, PoolErr.MALFORMED_VERSION)
      ↔ peer.nodePubKey ≠ pool.nodePubKey ∧ semverValid peer.version = false)
    ∧ (validatePeer semverValid semverCompare pool peer =
        Except.error (some DisconnectionReason.IncompatibleProtocolVersion, PoolErr.INCOMPATIBLE_VERSION)
      ↔ peer.nodePubKey ≠ pool.nodePubKey ∧ semverValid peer.version = true
          ∧ semverCompare peer.version pool.minCompatibleVersion = -1)
    ∧ (validatePeer semverValid semverCompare pool peer =
        Except.error (some DisconnectionReason.NotAcceptingConnections, PoolErr.POOL_CLOSED)
      ↔ peer.nodePubKey ≠ pool.nodePubKey ∧ semverValid peer.version = true
          ∧ semverCompare peer.version pool.minCompatibleVersion ≠ -1
          ∧ pool.connected = false)
    ∧ (validatePeer semverValid semverCompare pool peer =
        Except.error (some DisconnectionReason.Banned, PoolErr.NODE_IS_BANNED)
      ↔ peer.nodePubKey ≠ pool.nodePubKey ∧ semverValid peer.version = true
          ∧ semverCompare peer.version pool.minCompatibleVersion ≠ -1
          ∧ pool.connected = true ∧ peer.nodePubKey ∈ pool.bannedKeys)
    ∧ (validatePeer semverValid semverCompare pool peer =
        Except.error (some DisconnectionReason.AlreadyConnected, PoolErr.NODE_ALREADY_CONNECTED)
      ↔ peer.nodePubKey ≠ pool.nodePubKey ∧ semverValid peer.version = true
          ∧ semverCompare peer.version pool.minCompatibleVersion ≠ -1
          ∧ pool.connected = true ∧ peer.nodePubKey ∉ pool.bannedKeys
          ∧ peer.nodePubKey ∈ pool.peerKeys)
    ∧ (validatePeer semverValid semverCompare pool peer =
        Except.error (none, PoolErr.NOT_CONNECTED)
      ↔ peer.nodePubKey ≠ pool.nodePubKey ∧ semverValid peer.version = true
          ∧ semverCompare peer.version pool.minCompatibleVersion ≠ -1
          ∧ pool.connected = true ∧ peer.nodePubKey ∉ pool.bannedKeys
          ∧ peer.nodePubKey ∉ pool.peerKeys ∧ peer.connected = false)
    ∧ (validatePeer semverValid semverCompare pool peer = Except.ok ()
      ↔ peer.nodePubKey ≠ pool.nodePubKey ∧ semverValid peer.version = true
          ∧ semverCompare peer.version pool.minCompatibleVersion ≠ -1
          ∧ pool.connected = true ∧ peer.nodePubKey ∉ pool.bannedKeys
          ∧ peer.nodePubKey ∉ pool.peerKeys ∧ peer.connected = true) := by
  unfold validatePeer
  by_cases h1 : peer.nodePubKey = pool.nodePubKey
  · simp [h1]
  · rw [if_neg (by simpa using h1)]
    cases h2 : semverValid peer.version
    · simp [h1, h2]
    · simp only [Bool.not_true, Bool.false_eq_true, if_false]
      by_cases h3 : semverCompare peer.version pool.minCompatibleVersion = -1
      · simp [h1, h2, h3]
      · rw [if_neg (by simpa using h3)]
        cases h4 : pool.connected
        · simp [h1, h2, h3, h4]
        · simp only [Bool.not_true, Bool.false_eq_true, if_false]
          by_cases h5 : peer.nodePubKey ∈ pool.bannedKeys
          · simp [h1, h2, h3, h4, h5]
          · rw [if_neg (by simpa using h5)]
            by_cases h6 : peer.nodePubKey ∈ pool.peerKeys
            · simp [h1, h2, h3, h4, h5, h6]
            · rw [if_neg (by simpa using h6)]
              cases h7 : peer.connected
              · simp [h1, h2, h3, h4, h5, h6, h7]
              · simp [h1, h2, h3, h4, h5, h6, h7]

/-- From `Pool.addressIsSelf` (src/lib/p2p/Pool.ts lines 491-504): an address
is our own listening address when its port equals our listening port (which is
undefined when not listening) and its host is a loopback or wildcard name. -/
def addressIsSelf (pool : PoolModel) (address : Address) : Bool :=
  match pool.listenPort with
  | some port =>
    address.port == port
      && (address.host == "::" || address.host == "0.0.0.0" || address.host == "::1"
        || address.host == "127.0.0.1" || address.host == "localhost")
  | none => false

/-- The source test `address.host.indexOf(".onion") !== -1`: whether the host
string contains ".onion" as a substring, computed over the character list. -/
def isTorHost (host : String) : Bool :=
  (List.range (host.toList.length + 1)).any fun i =>
    (host.toList.drop i).take 6 == ".onion".toList

/-- From `Pool.addOutbound` (src/lib/p2p/Pool.ts lines 431-463): the
precondition checks in source order, returning the first error thrown, or
`none` when the call proceeds to create a peer. -/
def addOutboundCheck (pool : PoolModel) (address : Address) (nodePubKey : String)
    (revokeConnectionRetries : Bool) : Option PoolErr :=
  if nodePubKey == pool.nodePubKey || addressIsSelf pool address then
    some PoolErr.ATTEMPTED_CONNECTION_TO_SELF
  else if pool.disconnecting || !pool.connected then
    some PoolErr.POOL_CLOSED
  else if !pool.torEnabled && isTorHost address.host then
    some PoolErr.NODE_TOR_ADDRESS
  else if pool.bannedKeys.contains nodePubKey then
    some PoolErr.NODE_IS_BANNED
  else if pool.peerKeys.contains nodePubKey then
    some PoolErr.NODE_ALREADY_CONNECTED
  else if pool.pendingOutboundKeys.contains nodePubKey && !revokeConnectionRetries then
    some PoolErr.ALREADY_CONNECTING
  else
    none

/-- The mutation `this.pendingOutboundPeers.set(nodePubKey, peer)` on the key
set of the pending-outbound map. -/
def pendingAdded (pool : PoolModel) (k : String) : PoolModel :=
  { pool with pendingOutboundKeys := pool.pendingOutboundKeys.insert k }

/-- The mutation `this.peers.set(peerPubKey, peer)` (admission, Pool.ts line
581) on the key set of the peers map. -/
def peerAdmitted (pool : PoolModel) (k : String) : PoolModel :=
  { pool with peerKeys := pool.peerKeys.insert k }

/-- The mutation `this.pendingOutboundPeers.delete(nodePubKey)` in the
`finally` block of `addOutbound` (Pool.ts line 472). -/
def pendingRemovedAfterOpen (pool : PoolModel) (k : String) : PoolModel :=
  { pool with pendingOutboundKeys := pool.pendingOutboundKeys.erase k }

/-- From `Pool.addOutbound` and `Pool.openPeer` (src/lib/p2p/Pool.ts lines
465-475 and 581): the successive states of the `peers` / `pendingOutboundPeers`
key sets during an `addOutbound` call whose precondition checks passed, one
state per mutation in source order, with `await` boundaries (at which other
tasks and event listeners can observe the pool) between consecutive states.
`openSucceeds` says whether `openPeer` resolves (handshake, validation and
duplicate resolution all succeed, ending in admission) or throws; either way
the `finally` block then removes the pending entry. -/
def addOutboundStates (pool : PoolModel) (nodePubKey : String) (openSucceeds : Bool) :
    List PoolModel :=
  let s1 := pendingAdded pool nodePubKey
  if openSucceeds then
    let s2 := peerAdmitted s1 nodePubKey
    [s1, s2, pendingRemovedAfterOpen s2 nodePubKey]
  else
    [s1, pendingRemovedAfterOpen s1 nodePubKey]

/-- From `Pool.addOutbound` (src/lib/p2p/Pool.ts lines 431-475): either a
precondition check fails and the call throws before creating a `Peer` or
mutating the `peers` / `pendingOutboundPeers` collections, or the call proceeds
through the mutation states of `addOutboundStates`. -/
def addOutbound (pool : PoolModel) (address : Address) (nodePubKey : String)
    (revokeConnectionRetries : Bool) (openSucceeds : Bool) :
    Except PoolErr (List PoolModel) :=
  match addOutboundCheck pool address nodePubKey revokeConnectionRetries with
  | some e => Except.error e
  | none => Except.ok (addOutboundStates pool nodePubKey openSucceeds)

/-- The specification's invariant: no pubkey is in both the `peers` map and the
`pendingOutboundPeers` map at the same time. -/
def peersPendingDisjoint (pool : PoolModel) : Prop :=
  ∀ k ∈ pool.peerKeys, k ∉ pool.pendingOutboundKeys

instance (pool : PoolModel) : Decidable (peersPendingDisjoint pool) := by
  unfold peersPendingDisjoint; infer_instance

/-- C5: `addOutbound` fails with the first applicable precondition error, in
source order — self, pool closed, tor address, banned, already connected,
already connecting — and on failure performs no mutation (the error result
carries no mutation states); when every check passes it proceeds to the
mutation trace. In particular a banned pubkey yields `NODE_IS_BANNED` whenever
the self, pool-closed and tor checks do not fire first, regardless of the
`peers` and pending collections. -/
theorem addOutbound_precondition_errors (pool : PoolModel) (address : Address)
    (nodePubKey : String) (revokeConnectionRetries openSucceeds : Bool) :
    (addOutbound pool address nodePubKey revokeConnectionRetries openSucceeds =
        Except.error PoolErr.ATTEMPTED_CONNECTION_TO_SELF
      ↔ (nodePubKey = pool.nodePubKey ∨ addressIsSelf pool address = true))
    ∧ (addOutbound pool address nodePubKey revokeConnectionRetries openSucceeds =
        Except.error PoolErr.POOL_CLOSED
      ↔ ¬(nodePubKey = pool.nodePubKey ∨ addressIsSelf pool address = true)
          ∧ (pool.disconnecting = true ∨ pool.connected = false))
    ∧ (addOutbound pool address nodePubKey revokeConnectionRetries openSucceeds =
        Except.error PoolErr.NODE_TOR_ADDRESS
      ↔ ¬(nodePubKey = pool.nodePubKey ∨ addressIsSelf pool address = true)
          ∧ pool.disconnecting = false ∧ pool.connected = true
          ∧ (!pool.torEnabled && isTorHost address.host) = true)
    ∧ (addOutbound pool address nodePubKey revokeConnectionRetries openSucceeds =
        Except.error PoolErr.NODE_IS_BANNED
      ↔ ¬(nodePubKey = pool.nodePubKey ∨ addressIsSelf pool address = true)
          ∧ pool.disconnecting = false ∧ pool.connected = true
          ∧ (!pool.torEnabled && isTorHost address.host) = false
          ∧ nodePubKey ∈ pool.bannedKeys)
    ∧ (addOutbound pool address nodePubKey revokeConnectionRetries openSucceeds =
        Except.error PoolErr.NODE_ALREADY_CONNECTED
      ↔ ¬(nodePubKey = pool.nodePubKey ∨ addressIsSelf pool address = true)
          ∧ pool.disconnecting = false ∧ pool.connected = true
          ∧ (!pool.torEnabled && isTorHost address.host) = false
          ∧ nodePubKey ∉ pool.bannedKeys
          ∧ nodePubKey ∈ pool.peerKeys)
    ∧ (addOutbound pool address nodePubKey revokeConnectionRetries openSucceeds =
        Except.error PoolErr.ALREADY_CONNECTING
      ↔ ¬(nodePubKey = pool.nodePubKey ∨ addressIsSelf pool address = true)
          ∧ pool.disconnecting = false ∧ pool.connected = true
          ∧ (!pool.torEnabled && isTorHost address.host) = false
          ∧ nodePubKey ∉ pool.bannedKeys
          ∧ nodePubKey ∉ pool.peerKeys
          ∧ nodePubKey ∈ pool.pendingOutboundKeys ∧ revokeConnectionRetries = false)
    ∧ (addOutbound pool address nodePubKey revokeConnectionRetries openSucceeds =
        Except.ok (addOutboundStates pool nodePubKey openSucceeds)
      ↔ ¬(nodePubKey = pool.nodePubKey ∨ addressIsSelf pool address = true)
          ∧ pool.disconnecting = false ∧ pool.connected = true
          ∧ (!pool.torEnabled && isTorHost address.host) = false
          ∧ nodePubKey ∉ pool.bannedKeys
          ∧ nodePubKey ∉ pool.peerKeys
          ∧ ¬(nodePubKey ∈ pool.pendingOutboundKeys ∧ revokeConnectionRetries = false)) := by
  unfold addOutbound addOutboundCheck
  by_cases h1 : nodePubKey = pool.nodePubKey ∨ addressIsSelf pool address = true
  · rw [if_pos (by rcases h1 with h | h <;> simp [h])]
    simp [h1]
  · rw [if_neg (by simpa using h1)]
    cases hdisc : pool.disconnecting with
    | true => simp [h1]
    | false =>
      cases hconn : pool.connected with
      | false => simp [h1]
      | true =>
        cases htor : (!pool.torEnabled && isTorHost address.host) with
        | true => simp [h1]
        | false =>
          by_cases h4 : nodePubKey ∈ pool.bannedKeys
          · simp [h1, h4]
          · by_cases h5 : nodePubKey ∈ pool.peerKeys
            · simp [h1, h4, h5]
            · by_cases h6 : nodePubKey ∈ pool.pendingOutboundKeys
              · cases hrev : revokeConnectionRetries with
                | false => simp [h1, h4, h5, h6]
                | true => simp [h1, h4, h5, h6]
              · simp [h1, h4, h5, h6]

/-- Witness for C5 at concrete inputs: on a connected pool that has banned
pubkey 02bb, a subsequent `addOutbound` to 02bb throws `NODE_IS_BANNED` and
performs no mutation. -/
theorem addOutbound_precondition_errors_witness :
    addOutbound
        { nodePubKey := "02self", minCompatibleVersion := "1.0.0",
          bannedKeys := ["02bb"], peerKeys := ["02cc"] }
        { host := "1.2.3.4", port := 8885 } "02bb" false true =
      Except.error PoolErr.NODE_IS_BANNED := by
  exact (addOutbound_precondition_errors
      { nodePubKey := "02self", minCompatibleVersion := "1.0.0",
        bannedKeys := ["02bb"], peerKeys := ["02cc"] }
      { host := "1.2.3.4", port := 8885 } "02bb" false true).2.2.2.1.mpr (by decide)

/-- Counterexample to C4: starting from a connected pool with empty `peers` and
`pendingOutboundPeers`, a successful `addOutbound` to pubkey 02bb passes
through an intermediate state — after admission into `peers` (Pool.ts line 581)
and before the `finally`-block deletion from `pendingOutboundPeers` (line 472),
an interval that spans `await` boundaries and synchronous event emissions — in
which 02bb is in both collections, so the disjointness invariant does not hold
in every reachable state. -/
theorem addOutbound_transient_overlap :
    addOutbound { nodePubKey := "02self", minCompatibleVersion := "1.0.0" }
        { host := "1.2.3.4", port := 8885 } "02bb" false true =
      Except.ok
        [{ nodePubKey := "02self", minCompatibleVersion := "1.0.0",
           pendingOutboundKeys := ["02bb"] },
         { nodePubKey := "02self", minCompatibleVersion := "1.0.0",
           peerKeys := ["02bb"], pendingOutboundKeys := ["02bb"] },
         { nodePubKey := "02self", minCompatibleVersion := "1.0.0",
           peerKeys := ["02bb"] }]
    ∧ ¬ peersPendingDisjoint
        { nodePubKey := "02self", minCompatibleVersion := "1.0.0",
          peerKeys := ["02bb"], pendingOutboundKeys := ["02bb"] } := by
  constructor
  · rfl
  · decide

/-- C4 (amended): outside the admission window the disjointness invariant is
preserved. If the pool satisfies disjointness and the dialed pubkey is not yet
in `peers` (which `addOutbound` checks before inserting into
`pendingOutboundPeers`), then every state of the `addOutbound` mutation trace
is disjoint except the admission-window state itself, and in particular the
final state after the `finally`-block deletion is disjoint again. -/
theorem addOutbound_disjoint_outside_window (pool : PoolModel) (k : String)
    (openSucceeds : Bool) (hdisj : peersPendingDisjoint pool)
    (hfresh : k ∉ pool.peerKeys) (hnodup : pool.pendingOutboundKeys.Nodup) :
    (∀ s ∈ addOutboundStates pool k openSucceeds,
        s ≠ peerAdmitted (pendingAdded pool k) k → peersPendingDisjoint s)
    ∧ (∀ s, (addOutboundStates pool k openSucceeds).getLast? = some s →
        peersPendingDisjoint s) := by
  have hs1 : peersPendingDisjoint (pendingAdded pool k) := by
    intro j hj
    simp only [pendingAdded, List.mem_insert_iff]
    rintro (rfl | hjp)
    · exact hfresh hj
    · exact hdisj j hj hjp
  have hinsNodup : (pool.pendingOutboundKeys.insert k).Nodup := hnodup.insert
  have hs3 : peersPendingDisjoint
      (pendingRemovedAfterOpen (peerAdmitted (pendingAdded pool k) k) k) := by
    intro j hj hjp
    simp only [pendingRemovedAfterOpen, peerAdmitted, pendingAdded] at hj hjp
    rw [hinsNodup.mem_erase_iff] at hjp
    obtain ⟨hjk, hjins⟩ := hjp
    rcases List.mem_insert_iff.mp hj with rfl | hjpeers
    · exact hjk rfl
    · exact hdisj j hjpeers (by
        rcases List.mem_insert_iff.mp hjins with rfl | h
        · exact absurd hjpeers hfresh
        · exact h)
  have hs2f : peersPendingDisjoint (pendingRemovedAfterOpen (pendingAdded pool k) k) := by
    intro j hj hjp
    simp only [pendingRemovedAfterOpen, pendingAdded] at hj hjp
    rw [hinsNodup.mem_erase_iff] at hjp
    obtain ⟨hjk, hjins⟩ := hjp
    rcases List.mem_insert_iff.mp hjins with rfl | h
    · exact hjk rfl
    · exact hdisj j hj h
  cases openSucceeds
  · constructor
    · intro s hs _
      simp only [addOutboundStates, Bool.false_eq_true, if_false, List.mem_cons,
        List.mem_singleton, List.not_mem_nil] at hs
      rcases hs with rfl | rfl | h
      · exact hs1
      · exact hs2f
      · exact absurd h (by simp)
    · intro s hs
      simp only [addOutboundStates, Bool.false_eq_true, if_false] at hs
      have heq : pendingRemovedAfterOpen (pendingAdded pool k) k = s := by
        simpa [List.getLast?] using hs
      rw [← heq]
      exact hs2f
  · constructor
    · intro s hs hne
      simp only [addOutboundStates, if_true, List.mem_cons, List.mem_singleton,
        List.not_mem_nil] at hs
      rcases hs with rfl | rfl | rfl | h
      · exact hs1
      · exact absurd rfl hne
      · exact hs3
      · exact absurd h (by simp)
    · intro s hs
      simp only [addOutboundStates, if_true] at hs
      have heq : pendingRemovedAfterOpen (peerAdmitted (pendingAdded pool k) k) k = s := by
        simpa [List.getLast?] using hs
      rw [← heq]
      exact hs3

/-- Witness for the amended C4 at a concrete pool: a successful `addOutbound`
to 02bb from a disjoint pool with one other peer and one other pending key ends
in a disjoint state. -/
theorem addOutbound_disjoint_outside_window_witness :
    peersPendingDisjoint
      (pendingRemovedAfterOpen
        (peerAdmitted
          (pendingAdded
            { nodePubKey := "02self", minCompatibleVersion := "1.0.0",
              peerKeys := ["02dd"], pendingOutboundKeys := ["02ee"] } "02bb") "02bb") "02bb") := by
  exact (addOutbound_disjoint_outside_window
      { nodePubKey := "02self", minCompatibleVersion := "1.0.0",
        peerKeys := ["02dd"], pendingOutboundKeys := ["02ee"] } "02bb" true
      (by decide) (by decide) (by decide)).2 _ rfl

/-- Modelled from the spec: address equality ignores `lastConnected`
(specification section 3). The implementation lives in `addressUtils`, which is
not among the sources. -/
def areEqual (a b : Address) : Bool :=
  a.host == b.host && a.port == b.port

/-- Modelled from the spec: `addressUtils.sortByLastConnected` sorts addresses
in descending `lastConnected` order (specification sections 4.3 and 4.4); the
implementation is not among the sources. Addresses without a timestamp sort
last. -/
def sortByLastConnected (addresses : List Address) : List Address :=
  addresses.insertionSort fun a b => b.lastConnected.getD 0 ≤ a.lastConnected.getD 0

/-- One `addOutbound` attempt made by the connection routines: the address
dialed and the `retryConnecting` flag passed. -/
structure ConnectAttempt where
  address : Address
  retryConnecting : Bool
  deriving DecidableEq, Repr

/-- From `Pool.tryConnectWithLastAddress` (src/lib/p2p/Pool.ts lines 365-376):
dial the node's `lastAddress` if it has one. `connects address retryFlag` is
the connection oracle saying whether `addOutbound` resolves for that address
with that retry mode. Returns the attempts made and whether one succeeded. -/
def tryConnectWithLastAddress (connects : Address → Bool → Bool)
    (node : NodeConnectionInfo) (retryConnecting : Bool) : List ConnectAttempt × Bool :=
  match node.lastAddress with
  | none => ([], false)
  | some last => ([{ address := last, retryConnecting := retryConnecting }],
      connects last retryConnecting)

/-- The loop of `Pool.tryConnectWithAdvertisedAddresses` (src/lib/p2p/Pool.ts
lines 384-391): walk the sorted addresses, skip any equal to `lastAddress`,
stop at the first successful connection. -/
def tryAddressLoop (connects : Address → Bool → Bool) (lastAddress : Option Address) :
    List Address → List ConnectAttempt × Bool
  | [] => ([], false)
  | a :: rest =>
    if (match lastAddress with | some la => areEqual a la | none => false) then
      tryAddressLoop connects lastAddress rest
    else if connects a false then
      ([{ address := a, retryConnecting := false }], true)
    else
      let (atts, ok) := tryAddressLoop connects lastAddress rest
      ({ address := a, retryConnecting := false } :: atts, ok)

/-- From `Pool.tryConnectWithAdvertisedAddresses` (src/lib/p2p/Pool.ts lines
378-394): try the advertised addresses sorted by `lastConnected` descending. -/
def tryConnectWithAdvertisedAddresses (connects : Address → Bool → Bool)
    (node : NodeConnectionInfo) : List ConnectAttempt × Bool :=
  tryAddressLoop connects node.lastAddress (sortByLastConnected node.addresses)

/-- From `Pool.tryConnectNode` (src/lib/p2p/Pool.ts lines 357-363): last
address first, then the advertised addresses, then — when everything failed and
`retryConnecting` was requested — the last address again with retries
enabled. -/
def tryConnectNode (connects : Address → Bool → Bool) (node : NodeConnectionInfo)
    (retryConnecting : Bool) : List ConnectAttempt × Bool :=
  let r1 := tryConnectWithLastAddress connects node false
  if r1.2 then (r1.1, true)
  else
    let r2 := tryConnectWithAdvertisedAddresses connects node
    if r2.2 then (r1.1 ++ r2.1, true)
    else if retryConnecting then
      let r3 := tryConnectWithLastAddress connects node true
      (r1.1 ++ r2.1 ++ r3.1, r3.2)
    else
      (r1.1 ++ r2.1, false)

/-- The attempt sequence described by claim C6, built directly from the claim's
words: dial each address of the list in turn and stop at the first success. -/
def attemptsUntilSuccess (connects : Address → Bool → Bool) :
    List Address → List ConnectAttempt × Bool
  | [] => ([], false)
  | a :: rest =>
    if connects a false then ([{ address := a, retryConnecting := false }], true)
    else
      let (l, b) := attemptsUntilSuccess connects rest
      ({ address := a, retryConnecting := false } :: l, b)

/-- Claim C6's description of `tryConnectNode`: try `lastAddress` first when one
exists; on failure try the advertised addresses sorted by `lastConnected`
descending, skipping any equal to `lastAddress`, stopping at the first success;
if every address fails and `retryConnecting` was requested, retry `lastAddress`
with retrying enabled. -/
def tryConnectNodeSpec (connects : Address → Bool → Bool) (node : NodeConnectionInfo)
    (retryConnecting : Bool) : List ConnectAttempt × Bool :=
  match node.lastAddress with
  | some la =>
    if connects la false then ([{ address := la, retryConnecting := false }], true)
    else
      let cands := (sortByLastConnected node.addresses).filter fun a => !(areEqual a la)
      let (tried, ok) := attemptsUntilSuccess connects cands
      if ok then ({ address := la, retryConnecting := false } :: tried, true)
      else if retryConnecting then
        ({ address := la, retryConnecting := false } :: tried
            ++ [{ address := la, retryConnecting := true }],
          connects la true)
      else ({ address := la, retryConnecting := false } :: tried, false)
  | none => attemptsUntilSuccess connects (sortByLastConnected node.addresses)

/-- Helper for C6: the advertised-address loop is the stop-at-first-success walk
of the sorted list with the `lastAddress` duplicates filtered out. -/
theorem tryAddressLoop_eq_filter (connects : Address → Bool → Bool)
    (lastAddress : Option Address) (l : List Address) :
    tryAddressLoop connects lastAddress l =
      attemptsUntilSuccess connects
        (l.filter fun a =>
          !(match lastAddress with | some la => areEqual a la | none => false)) := by
  induction l with
  | nil => rfl
  | cons a rest ih =>
    cases lastAddress with
    | none =>
      simp only [tryAddressLoop, List.filter_cons]
      cases hc : connects a false with
      | true => simp [attemptsUntilSuccess, hc]
      | false => simp [attemptsUntilSuccess, hc, ih]
    | some la =>
      simp only [tryAddressLoop, List.filter_cons]
      cases heq : areEqual a la with
      | true => simpa [heq] using ih
      | false =>
        cases hc : connects a false with
        | true => simp [attemptsUntilSuccess, heq, hc]
        | false => simp [attemptsUntilSuccess, heq, hc, ih]

/-- C6: `tryConnectNode` makes exactly the attempt sequence the claim describes:
`lastAddress` first when present, then the advertised addresses in descending
`lastConnected` order skipping `lastAddress`, stopping at the first success,
and finally — when all addresses failed and `retryConnecting` was requested — a
retrying attempt at `lastAddress`. -/
theorem tryConnectNode_attempt_order (connects : Address → Bool → Bool)
    (node : NodeConnectionInfo) (retryConnecting : Bool) :
    tryConnectNode connects node retryConnecting =
      tryConnectNodeSpec connects node retryConnecting := by
  cases hla : node.lastAddress with
  | none =>
    cases hres : attemptsUntilSuccess connects (sortByLastConnected node.addresses) with
    | mk atts ok =>
      cases ok <;> cases retryConnecting <;>
        simp [tryConnectNode, tryConnectNodeSpec, tryConnectWithLastAddress,
          tryConnectWithAdvertisedAddresses, tryAddressLoop_eq_filter, hla, hres]
  | some la =>
    cases hc : connects la false with
    | true =>
      simp [tryConnectNode, tryConnectNodeSpec, tryConnectWithLastAddress,
        tryConnectWithAdvertisedAddresses, hla, hc]
    | false =>
      cases hres : attemptsUntilSuccess connects
          ((sortByLastConnected node.addresses).filter fun a => !(areEqual a la)) with
      | mk atts ok =>
        cases ok <;> cases retryConnecting <;>
          simp [tryConnectNode, tryConnectNodeSpec, tryConnectWithLastAddress,
            tryConnectWithAdvertisedAddresses, tryAddressLoop_eq_filter, hla, hc, hres]

/-- The pool state read and mutated by `Pool.disconnect`: the connection flags,
whether a bulk reconnection (`loadingNodesPromise`) is pending, whether the
server is listening, the active peer keys, and the sizes of the two pending
collections. -/
structure ShutdownPoolState where
  connected : Bool
  disconnecting : Bool
  loadingNodes : Bool
  listening : Bool
  peerKeys : List String
  pendingOutboundCount : Nat
  pendingInboundCount : Nat
  deriving DecidableEq, Repr

/-- One `peer.close` call made during shutdown: the peer and the disconnection
reason sent, if any. -/
structure PeerCloseCall where
  nodePubKey : String
  reason : Option DisconnectionReason
  deriving DecidableEq, Repr

/-- From `Pool.closePeers` (src/lib/p2p/Pool.ts lines 1005-1011): close every
active peer with reason `Shutdown`. -/
def closePeers (peerKeys : List String) : List PeerCloseCall :=
  peerKeys.map fun k => { nodePubKey := k, reason := some DisconnectionReason.Shutdown }

/-- From `Pool.closePendingConnections` (src/lib/p2p/Pool.ts lines 1013-1022):
close every pending outbound and pending inbound peer (with no reason); the
model records how many peers are closed. -/
def closePendingConnections (pendingOutboundCount pendingInboundCount : Nat) : Nat :=
  pendingOutboundCount + pendingInboundCount

/-- The ordered observable steps of a `Pool.disconnect` call. The three
shutdown actions (`unlisten`, `closePendingConnections`, `closePeers`) run in
parallel under one `Promise.all`, so they form a single step. -/
inductive ShutdownEvent
  | setDisconnecting
  | awaitLoadingNodes
  | parallelShutdown (stopListening : Bool) (pendingClosed : Nat)
      (peerCloses : List PeerCloseCall)
  | clearConnectedFlags
  deriving DecidableEq, Repr

/-- From `Pool.disconnect` (src/lib/p2p/Pool.ts lines 273-285): a no-op on a
pool that is not connected; otherwise set `disconnecting`, await the loading
promise when present, run the three shutdown actions in parallel, and clear
both flags once all of them completed. Returns the final state and the ordered
step list. -/
def disconnect (s : ShutdownPoolState) : ShutdownPoolState × List ShutdownEvent :=
  if !s.connected then (s, [])
  else
    ({ connected := false, disconnecting := false, loadingNodes := false,
       listening := false, peerKeys := [], pendingOutboundCount := 0,
       pendingInboundCount := 0 },
     ShutdownEvent.setDisconnecting
       :: (if s.loadingNodes then [ShutdownEvent.awaitLoadingNodes] else [])
       ++ [ShutdownEvent.parallelShutdown s.listening
            (closePendingConnections s.pendingOutboundCount s.pendingInboundCount)
            (closePeers s.peerKeys),
           ShutdownEvent.clearConnectedFlags])

/-- C8: `disconnect` on a pool that is not connected returns without changing
any state; on a connected pool it first sets `disconnecting`, awaits the bulk
reconnection exactly when one is pending, then in one parallel step stops the
listening server, closes every pending peer and closes every active peer with
reason `Shutdown`, and only after that clears `connected` and `disconnecting`
as its final step. -/
theorem disconnect_shutdown_order (s : ShutdownPoolState) :
    (s.connected = false → disconnect s = (s, []))
    ∧ (s.connected = true →
        disconnect s =
          ({ connected := false, disconnecting := false, loadingNodes := false,
             listening := false, peerKeys := [], pendingOutboundCount := 0,
             pendingInboundCount := 0 },
           ShutdownEvent.setDisconnecting
             :: (if s.loadingNodes then [ShutdownEvent.awaitLoadingNodes] else [])
             ++ [ShutdownEvent.parallelShutdown s.listening
                  (s.pendingOutboundCount + s.pendingInboundCount)
                  (s.peerKeys.map fun k =>
                    { nodePubKey := k, reason := some DisconnectionReason.Shutdown }),
                 ShutdownEvent.clearConnectedFlags])
          ∧ (disconnect s).2.getLast? = some ShutdownEvent.clearConnectedFlags
          ∧ ∀ k ∈ s.peerKeys,
              ({ nodePubKey := k, reason := some DisconnectionReason.Shutdown }
                  : PeerCloseCall) ∈ closePeers s.peerKeys) := by
  constructor
  · intro h
    simp [disconnect, h]
  · intro h
    refine ⟨by simp [disconnect, closePeers, closePendingConnections, h], ?_, ?_⟩
    · cases hl : s.loadingNodes <;> simp [disconnect, h, hl]
    · intro k hk
      exact List.mem_map.mpr ⟨k, hk, rfl⟩

/-- Witness for C8 at a concrete connected pool with one active peer, a pending
inbound peer and a pending bulk reconnection. -/
theorem disconnect_shutdown_order_witness :
    disconnect
        { connected := true, disconnecting := false, loadingNodes := true,
          listening := true, peerKeys := ["02aa"], pendingOutboundCount := 0,
          pendingInboundCount := 1 } =
      ({ connected := false, disconnecting := false, loadingNodes := false,
         listening := false, peerKeys := [], pendingOutboundCount := 0,
         pendingInboundCount := 0 },
       [ShutdownEvent.setDisconnecting, ShutdownEvent.awaitLoadingNodes,
        ShutdownEvent.parallelShutdown true 1
          [{ nodePubKey := "02aa", reason := some DisconnectionReason.Shutdown }],
        ShutdownEvent.clearConnectedFlags]) := by
  exact ((disconnect_shutdown_order
      { connected := true, disconnecting := false, loadingNodes := true,
        listening := true, peerKeys := ["02aa"], pendingOutboundCount := 0,
        pendingInboundCount := 1 }).2 rfl).1

/-- The membership of one inbound peer in the `pendingInboundPeers` set and the
`peers` map at one point of the inbound lifecycle. -/
structure InboundPeerState where
  pendingInbound : Bool
  inPeers : Bool
  deriving DecidableEq, Repr

/-- From `Pool.addInbound` (src/lib/p2p/Pool.ts lines 752-760): the created
peer is added to `pendingInboundPeers`, the open attempt runs (`tryOpenPeer`
swallows errors; on success `openPeer` admits the peer into `peers`), and after
the attempt completes the peer is removed from `pendingInboundPeers`. One state
per step, `await` boundaries between consecutive states. -/
def addInbound (openSucceeds : Bool) : List InboundPeerState :=
  [{ pendingInbound := true, inPeers := false },
   { pendingInbound := true, inPeers := openSucceeds },
   { pendingInbound := false, inPeers := openSucceeds }]

/-- From `Pool.handleSocket` (src/lib/p2p/Pool.ts lines 762-776): an accepted
socket with no remote address (already disconnected) or with a banned remote IP
is destroyed before any handshake and no `Peer` is created (`none`); otherwise
the inbound lifecycle of `addInbound` runs. -/
def handleSocket (bannedIps : List String) (remoteAddress : Option String)
    (openSucceeds : Bool) : Option (List InboundPeerState) :=
  match remoteAddress with
  | none => none
  | some addr =>
    if bannedIps.contains addr then none
    else some (addInbound openSucceeds)

/-- C9: an accepted inbound socket from a banned remote IP is destroyed before
any handshake begins and no `Peer` is created; otherwise the peer joins the
`pendingInboundPeers` set, is removed from it after the open attempt completes,
and is in the `peers` map at the end exactly when the handshake succeeded. -/
theorem handleSocket_banned_and_lifecycle (bannedIps : List String)
    (remoteAddress : Option String) (openSucceeds : Bool) :
    (remoteAddress = none →
      handleSocket bannedIps remoteAddress openSucceeds = none)
    ∧ (∀ addr, remoteAddress = some addr → addr ∈ bannedIps →
        handleSocket bannedIps remoteAddress openSucceeds = none)
    ∧ (∀ addr, remoteAddress = some addr → addr ∉ bannedIps →
        handleSocket bannedIps remoteAddress openSucceeds = some (addInbound openSucceeds)
          ∧ (addInbound openSucceeds).head? =
              some { pendingInbound := true, inPeers := false }
          ∧ (addInbound openSucceeds).getLast? =
              some { pendingInbound := false, inPeers := openSucceeds }
          ∧ (∀ st ∈ addInbound openSucceeds, st.inPeers = true → openSucceeds = true)) := by
  refine ⟨?_, ?_, ?_⟩
  · intro h
    simp [handleSocket, h]
  · intro addr ha hb
    simp [handleSocket, ha, hb]
  · intro addr ha hb
    refine ⟨by simp [handleSocket, ha, hb], rfl, rfl, ?_⟩
    intro st hst hin
    cases hsucc : openSucceeds with
    | true => rfl
    | false =>
      subst hsucc
      simp [addInbound] at hst
      rcases hst with rfl | rfl | rfl <;> simpa using hin

/-- Witness for C9 at concrete inputs: a non-banned remote IP goes through the
pending-inbound lifecycle and, with a successful handshake, ends in the `peers`
map and out of `pendingInboundPeers`. -/
theorem handleSocket_banned_and_lifecycle_witness :
    handleSocket ["9.9.9.9"] (some "1.2.3.4") true =
      some (addInbound true)
    ∧ (addInbound true).getLast? = some { pendingInbound := false, inPeers := true } := by
  have h := (handleSocket_banned_and_lifecycle ["9.9.9.9"] (some "1.2.3.4") true).2.2
      "1.2.3.4" rfl (by decide)
  exact ⟨h.1, h.2.2.1⟩

/-- The outcome of the duplicate branch of `Pool.openPeer` (src/lib/p2p/Pool.ts
lines 562-579) for a connection whose completed handshake finds an existing
`peers`-map entry for the same remote pubkey.
`newClosedImmediately`: the new socket is closed with `AlreadyConnected` and
`openPeer` throws `NODE_ALREADY_CONNECTED` at once.
`newReplacesExisting`: the existing peer's socket closed within the
`STALL_INTERVAL` wait, and the new connection replaces it in the `peers` map.
`newClosedAfterWait`: the wait timed out; the new socket is closed with
`AlreadyConnected` and `openPeer` throws `NODE_ALREADY_CONNECTED`. -/
inductive DupOutcome
  | newClosedImmediately
  | newReplacesExisting
  | newClosedAfterWait
  deriving DecidableEq, Repr

/-- From `Pool.openPeer` (src/lib/p2p/Pool.ts lines 562-579): the duplicate
resolution applied by the local node. The source condition is
`this.nodePubKey > peerPubKey` (TypeScript lexicographic string comparison):
the node whose own pubkey is greater than the remote's closes the new socket
immediately; otherwise it waits up to `Peer.STALL_INTERVAL` for the existing
peer's socket to close — `existingSocketCloses` says whether that happens
within the window. -/
def openPeerDuplicateResolution (ourPubKey remotePubKey : String)
    (existingSocketCloses : Bool) : DupOutcome :=
  if remotePubKey < ourPubKey then DupOutcome.newClosedImmediately
  else if existingSocketCloses then DupOutcome.newReplacesExisting
  else DupOutcome.newClosedAfterWait

/-- The two connections of the duplicate race between nodes A and B: `ca` is
the connection initiated (dialed) by A, `cb` the one initiated by B. -/
inductive Conn
  | ca
  | cb
  deriving DecidableEq, Repr

/-- The other connection of the race. -/
def Conn.other : Conn → Conn
  | Conn.ca => Conn.cb
  | Conn.cb => Conn.ca

/-- The settled outcome of the race: the `peers`-map entries for the remote
node at A and at B, and the connections that were closed. -/
structure RaceResult where
  peersAtA : List Conn
  peersAtB : List Conn
  closed : List Conn
  deriving DecidableEq, Repr

/-- The waiting node's side of the race: node `waiterKey` holds `firstW` (the
connection that completed first at this node) in its peers map and runs
`openPeerDuplicateResolution` for its second-completing connection, after the
other node has closed `closedByCloser` — so the waiter's existing entry closes
within its wait window iff it is that very connection. Returns the final peers
entries at the waiter and the connections the waiter itself closes. -/
def raceAtWaiter (waiterKey closerKey : String) (firstW closedByCloser : Conn) :
    List Conn × List Conn :=
  match openPeerDuplicateResolution waiterKey closerKey (firstW == closedByCloser) with
  | DupOutcome.newClosedImmediately => ([firstW], [firstW.other])
  | DupOutcome.newReplacesExisting => ([firstW.other], [])
  | DupOutcome.newClosedAfterWait => ([firstW], [firstW.other])

/-- The two-node duplicate-connection race of specification section 4.2,
assembled from `openPeerDuplicateResolution` at both ends. Nodes A and B (own
pubkeys `kA`, `kB`) dial each other simultaneously; at each node the first
connection to complete its handshake (`firstA` at A, `firstB` at B) is admitted
into that node's peers map and the second one enters the duplicate branch of
`openPeer`. The schedule is the one the source's wait is designed for: the node
whose resolution closes its new socket immediately (the higher-pubkey node)
acts first, within the other node's `STALL_INTERVAL` window; the immediate
closer's decision does not read `existingSocketCloses`, so `false` is passed as
a placeholder. `none` when neither side closes immediately (equal keys), which
cannot occur for distinct nodes. -/
def racePlay (kA kB : String) (firstA firstB : Conn) : Option RaceResult :=
  match openPeerDuplicateResolution kA kB false, openPeerDuplicateResolution kB kA false with
  | DupOutcome.newClosedImmediately, DupOutcome.newClosedImmediately => none
  | DupOutcome.newClosedImmediately, _ =>
    let closedAtA := firstA.other
    let rB := raceAtWaiter kB kA firstB closedAtA
    some { peersAtA := [firstA], peersAtB := rB.1, closed := closedAtA :: rB.2 }
  | _, DupOutcome.newClosedImmediately =>
    let closedAtB := firstB.other
    let rA := raceAtWaiter kA kB firstA closedAtB
    some { peersAtA := rA.1, peersAtB := [firstB], closed := closedAtB :: rA.2 }
  | _, _ => none

/-- Counterexample to C1: nodes A (pubkey 02aa, lower) and B (pubkey 02bb,
higher) race, and at B the connection initiated by B completes its handshake
first. B then closes its second-completing connection — the one initiated by A —
and A, waiting for its existing entry (also A's connection, which B just
closed), replaces it with B's connection. Both sides settle on exactly one
entry, but the closed connection is the one initiated by the lower-pubkey node
A, and the higher-pubkey node's connection survives — contrary to the claim
that the connection initiated by the node with the higher pubkey is the one
closed. -/
theorem race_higher_initiated_connection_survives :
    racePlay "02aa" "02bb" Conn.ca Conn.cb =
      some { peersAtA := [Conn.cb], peersAtB := [Conn.cb], closed := [Conn.ca] } := by
  have hab : ("02aa" : String) < "02bb" := by
    rw [String.lt_iff_toList_lt]
    decide
  have hba : ¬ (("02bb" : String) < "02aa") := by
    rw [String.lt_iff_toList_lt]
    decide
  simp [racePlay, openPeerDuplicateResolution, raceAtWaiter, Conn.other, hab, hba]

/-- C1 (amended): for any race between distinct pubkeys `kA < kB` and any
handshake-completion orders, the higher-pubkey node closes its second
connection immediately with `AlreadyConnected` (and `openPeer` throws
`NODE_ALREADY_CONNECTED`), the lower-pubkey node waits and replaces its entry
exactly when the existing socket closes within the `STALL_INTERVAL` window, and
the race converges: both sides end with the same single `peers`-map entry — the
connection that completed first at the higher-pubkey node — and every closed
connection is the other one. Which initiator's connection survives therefore
depends on the completion order at the higher-pubkey node, not on the pubkey
order alone. -/
theorem race_tiebreak_and_convergence (kA kB : String) (firstA firstB : Conn)
    (h : kA < kB) :
    openPeerDuplicateResolution kB kA false = DupOutcome.newClosedImmediately
    ∧ (∀ closes : Bool, openPeerDuplicateResolution kA kB closes =
        if closes then DupOutcome.newReplacesExisting else DupOutcome.newClosedAfterWait)
    ∧ (∀ r, racePlay kA kB firstA firstB = some r →
        r.peersAtA = [firstB] ∧ r.peersAtB = [firstB]
          ∧ ∀ c, c ∈ r.closed ↔ c = firstB.other)
    ∧ (racePlay kA kB firstA firstB).isSome = true := by
  have hba : ¬ (kB < kA) := lt_asymm h
  have hB : openPeerDuplicateResolution kB kA false = DupOutcome.newClosedImmediately := by
    unfold openPeerDuplicateResolution
    rw [if_pos h]
  have hA : ∀ closes : Bool, openPeerDuplicateResolution kA kB closes =
      if closes then DupOutcome.newReplacesExisting else DupOutcome.newClosedAfterWait := by
    intro closes
    unfold openPeerDuplicateResolution
    rw [if_neg hba]
  have hrp : racePlay kA kB firstA firstB =
      some { peersAtA := [firstB], peersAtB := [firstB],
             closed := if firstA == firstB then [firstB.other, firstB.other]
                       else [firstB.other] } := by
    cases firstA <;> cases firstB <;>
      simp [racePlay, hB, hA, raceAtWaiter, Conn.other]
  refine ⟨hB, hA, ?_, ?_⟩
  · intro r hr
    rw [hrp] at hr
    obtain rfl : r = _ := (Option.some.inj hr).symm
    refine ⟨rfl, rfl, ?_⟩
    intro c
    by_cases hff : (firstA == firstB) = true
    · rw [if_pos hff]
      simp
    · rw [if_neg hff]
      simp
  · rw [hrp]
    rfl

/-- Witness for the amended C1 at concrete keys 02aa < 02bb: the race settles
(a result exists) for the completion order where A's connection finishes first
at both nodes. -/
theorem race_tiebreak_and_convergence_witness :
    (racePlay "02aa" "02bb" Conn.ca Conn.ca).isSome = true := by
  exact (race_tiebreak_and_convergence "02aa" "02bb" Conn.ca Conn.ca
      (by rw [String.lt_iff_toList_lt]; decide)).2.2.2

end XudPool
